import Mathlib

/-!
# Verification of `walmart_automation_clean.py`

A shallow embedding, in Lean 4, of the form-resolution and workflow-classification
logic of the repository's single source file `walmart_automation_clean.py`,
together with theorems settling the specification claims about it.

Conventions of the embedding:
* Python strings are modelled as `List Char` (or Lean `String` where convenient);
  `s.lower()` is `List.map Char.toLower`, `in` (substring test) is `pyIn`,
  `str.strip()` is `pyStrip`, `str.split(",")` is `pySplit ','` and
  `str.split()` is `pyWords`.
* Browser state is modelled by oracles: a locator query such as
  `page.locator(sel).first.count() > 0 and ....is_visible()` is a boolean
  function of the selector, one oracle per query site (the page mutates
  between sites).
* A step either returns normally or raises; `apply_to_job` catches any raise
  from the step sequence at the job boundary, exactly as the `try/except` in
  the source does.
-/

set_option autoImplicit false

namespace Walmart

/-! ## Python string primitives -/

/-- Python `str.isspace` characters relevant here: space, tab, newline,
carriage return, vertical tab, form feed. -/
def pyIsSpace (c : Char) : Bool :=
  c = ' ' || c = '\t' || c = '\n' || c = '\r' || c = '\x0b' || c = '\x0c'

/-- Python's substring test `pat in hay`.  Note `pyIn [] hay = true` for every
`hay`, as in Python, where `"" in s` always holds. -/
def pyIn (pat hay : List Char) : Bool :=
  (List.range (hay.length + 1)).any (fun i => ((hay.drop i).take pat.length) == pat)

/-- Python `str.strip()`: drop whitespace from both ends. -/
def pyStrip (cs : List Char) : List Char :=
  ((cs.dropWhile pyIsSpace).reverse.dropWhile pyIsSpace).reverse

/-- Python `str.split(sep)` for a one-character separator: the empty string
splits to `[""]`, separators at the ends produce empty pieces. -/
def pySplit (sep : Char) : List Char → List (List Char)
  | [] => [[]]
  | c :: cs =>
      if c = sep then [] :: pySplit sep cs
      else (c :: (pySplit sep cs).headD []) :: (pySplit sep cs).tail

/-- Python `str.split()` (no argument): split on whitespace runs, dropping
empty pieces. -/
def pyWords (cs : List Char) : List (List Char) :=
  (cs.splitOnP pyIsSpace).filter (fun w => w ≠ [])

/-- Python truthiness of an optional string (an `os.getenv` result):
`None` and `""` are falsy. -/
def pyTruthy : Option String → Bool
  | none => false
  | some s => s ≠ ""

example : pySplit ',' "a,,b".toList = ["a".toList, [], "b".toList] := by decide
example : pySplit ',' "".toList = [[]] := by decide
example : pySplit ',' "a,".toList = ["a".toList, []] := by decide
example : pyStrip "  ab c  ".toList = "ab c".toList := by decide
example : pyWords "Previous associate".toList = ["Previous".toList, "associate".toList] := by decide
example : pyIn [] "anything".toList = true := by decide
example : pyIn "act".toList "exact".toList = true := by decide

/-! ## `is_dropdown_filled` (source lines 301-331)

```python
dropdown_text = dropdown_element.inner_text().lower()
empty_indicators = [
    "select one", "select an", "choose", "please select",
    "-- select", "select...", "click to select", ""
]
if any(indicator in dropdown_text for indicator in empty_indicators):
    return False
value = dropdown_element.get_attribute("value")
if value and value.strip() and value not in ["", "0", "-1"]:
    return True
if len(dropdown_text.strip()) > 15:
    return True
return False
```
with the whole body wrapped in `try: ... except Exception: return False`. -/

/-- A dropdown element as `is_dropdown_filled` observes it: the result of
`inner_text()`, the `value` attribute (`none` models attribute absent), and
whether reading the element raises (the `except` branch). -/
structure DropdownEl where
  innerText : List Char
  valueAttr : Option (List Char)
  innerRaises : Bool
deriving DecidableEq

def empty_indicators : List (List Char) :=
  ["select one".toList, "select an".toList, "choose".toList, "please select".toList,
   "-- select".toList, "select...".toList, "click to select".toList, "".toList]

def sentinel_values : List (List Char) := ["".toList, "0".toList, "-1".toList]

def is_dropdown_filled (d : DropdownEl) : Bool :=
  if d.innerRaises then false
  else
    let dropdown_text := d.innerText.map Char.toLower
    if empty_indicators.any (fun ind => pyIn ind dropdown_text) then false
    else if (match d.valueAttr with
             | some v => v ≠ [] && pyStrip v ≠ [] && ¬ sentinel_values.contains v
             | none => false) then true
    else if (pyStrip dropdown_text).length > 15 then true
    else false

/-- Modelled from the spec: the already-filled predicate as the claim states
it — the displayed text matches none of the placeholder texts (the empty
string placeholder meaning the displayed text is blank), and either the value
attribute is non-empty and non-sentinel or the displayed text exceeds the
short-text length threshold (15). -/
def spec_dropdown_filled (d : DropdownEl) : Bool :=
  if d.innerRaises then false
  else
    let dropdown_text := d.innerText.map Char.toLower
    let placeholderMatch :=
      ((empty_indicators.filter (fun ind => ind ≠ [])).any
        (fun ind => pyIn ind dropdown_text)) || pyStrip dropdown_text == []
    if placeholderMatch then false
    else
      (match d.valueAttr with
       | some v => v ≠ [] && pyStrip v ≠ [] && ¬ sentinel_values.contains v
       | none => false)
      || (pyStrip dropdown_text).length > 15

/-- The empty indicator `""` is a substring of every dropdown text, so the
source's `is_dropdown_filled` returns `false` on every input. -/
theorem is_dropdown_filled_always_false (d : DropdownEl) :
    is_dropdown_filled d = false := by
  have hin : ∀ t : List Char, pyIn [] t = true := by
    intro t
    unfold pyIn
    apply List.any_eq_true.mpr
    exact ⟨0, List.mem_range.mpr (Nat.succ_pos _), by simp⟩
  have hany : ∀ t : List Char, empty_indicators.any (fun ind => pyIn ind t) = true := by
    intro t
    exact List.any_eq_true.mpr ⟨[], by decide, hin t⟩
  unfold is_dropdown_filled
  cases h : d.innerRaises <;> simp [hany]

/-! ## Option selection inside an opened dropdown
(`fill_question_by_pattern`, source lines 399-432)

```python
option_selectors = [
    f'[role="option"]:has-text("{answer_text}")',
    f'li:has-text("{answer_text}")',
    f'div:has-text("{answer_text}")',
    f'[data-automation-label*="{answer_text}"]'
]
for opt_selector in option_selectors:
    option = page.locator(opt_selector).first
    if option.count() > 0 and option.is_visible():
        option.click(); ...; return True
if not answer_found:
    words = answer_text.split()
    for word in words:
        if len(word) > 3:
            partial_option = page.locator(f'[role="option"]:has-text("{word}")').first
            if partial_option.count() > 0 and partial_option.is_visible():
                partial_option.click(); ...; return True
    page.keyboard.press('Escape')
    return False
```
-/

/-- The selectors `fill_question_by_pattern` builds from an answer text (or,
in the fallback tier, from one word of it). -/
inductive OptSel
  | roleOption (t : List Char)
  | liHasText (t : List Char)
  | divHasText (t : List Char)
  | autoLabel (t : List Char)
deriving DecidableEq

/-- The exact-tier selector list for a given answer text, in source order. -/
def option_selectors (answer : List Char) : List OptSel :=
  [.roleOption answer, .liHasText answer, .divHasText answer, .autoLabel answer]

/-- Result of the option search on an opened dropdown. -/
inductive SelectResult
  | exactSel (s : OptSel)
  | fallbackWord (w : List Char)
  | escapeClosed
deriving DecidableEq

/-- The option search of `fill_question_by_pattern` on an opened dropdown.
`q sel` is the oracle for `page.locator(sel).first.count() > 0 and
....is_visible()` on the opened page. -/
def select_answer (q : OptSel → Bool) (answer : List Char) : SelectResult :=
  match (option_selectors answer).find? q with
  | some s => .exactSel s
  | none =>
      match (pyWords answer).find? (fun w => decide (w.length > 3) && q (.roleOption w)) with
      | some w => .fallbackWord w
      | none => .escapeClosed

/-- The question-pattern → answer table of step 7 (source lines 512-529), in
Python dict insertion order. -/
def question_mappings : List (String × String) :=
  [("Do you certify you meet all minimum qualifications", "Yes"),
   ("mobile text message", "Opt-Out from receiving text messages from Walmart"),
   ("Are you legally able to work", "Yes"),
   ("Please select your age category", "18 years of age and Over"),
   ("Walmart Associate Status", "Previous associate"),
   ("work authorization within 3 days", "Yes"),
   ("sponsorship for an immigration-related employment", "No"),
   ("Walmart in determining your eligibility", "No"),
   ("Spouse/Partner of someone", "No"),
   ("direct family member", "No")]

/-- If the fallback tier selects a word, that word is a word of the answer of
length greater than 3, visible as an option. -/
theorem select_answer_fallback_inv (q : OptSel → Bool) (answer w : List Char)
    (h : select_answer q answer = .fallbackWord w) :
    w ∈ pyWords answer ∧ w.length > 3 ∧ q (.roleOption w) = true := by
  unfold select_answer at h
  cases hfind : (option_selectors answer).find? q with
  | some s => rw [hfind] at h; exact absurd h (by simp)
  | none =>
      rw [hfind] at h
      cases hfall : (pyWords answer).find?
          (fun w => decide (w.length > 3) && q (.roleOption w)) with
      | none => rw [hfall] at h; exact absurd h (by simp)
      | some w0 =>
          rw [hfall] at h
          have hw : w0 = w := by cases h; rfl
          subst hw
          have hmem := List.mem_of_find?_eq_some hfall
          have hp := List.find?_some hfall
          simp only [Bool.and_eq_true, decide_eq_true_eq] at hp
          exact ⟨hmem, hp.1, hp.2⟩

/-! ## Sweep pass auto-fill (`step_7_application_questions`, source lines 756-832)

After the mapped questions and the military handler, step 7 scans all
dropdown-like controls, reports each one for which `is_dropdown_filled` is
false (lines 699-755), and then runs an auto-fill loop: for each visible
unfilled dropdown it walks ancestor levels 1..4 (`range(1, 5)`), lowercases
the ancestor's `inner_text()", and checks it against `military_patterns`;
only on a match does it open the dropdown and click the option
`[role="option"]:has-text("No")`, else it prints "skipping dropdown". -/

def military_patterns : List (List Char) :=
  ["uniformed services".toList, "active duty".toList, "guard".toList,
   "reserve".toList, "military".toList, "hiring program".toList,
   "service members".toList]

/-- One dropdown as the sweep pass observes it: visibility, the element data
used by `is_dropdown_filled`, the `inner_text()` of ancestor levels 1..4
(`none` models the raise swallowed by `except: continue`), whether the option
`[role="option"]:has-text("No")` is present and visible once opened, and
whether opening/clicking raises (the `except` that presses Escape). -/
structure SweepDropdown where
  visible : Bool
  el : DropdownEl
  ancestorTexts : List (Option (List Char))
  noOptionVisible : Bool
  fillRaises : Bool
deriving DecidableEq

/-- The `question_found` computation of the auto-fill loop (source lines
778-795): some ancestor level 1..4 has text containing a military pattern. -/
def sweep_question_found (d : SweepDropdown) : Bool :=
  (d.ancestorTexts.take 4).any (fun ot =>
    match ot with
    | none => false
    | some t => military_patterns.any (fun p => pyIn p (t.map Char.toLower)))

/-- What the auto-fill loop does to one dropdown. -/
inductive SweepAction
  | notTouched
  | openedFilledNo
  | openedEscaped
deriving DecidableEq

/-- The body of the auto-fill loop (source lines 767-826) for one dropdown:
invisible or (per `is_dropdown_filled`) filled dropdowns are skipped; on a
military-pattern match the dropdown is opened and "No" clicked when visible
(Escape otherwise, also when the attempt raises); with no pattern match the
dropdown is skipped ("No question pattern found - skipping dropdown"). -/
def auto_fill_action (d : SweepDropdown) : SweepAction :=
  if ¬ d.visible then .notTouched
  else if is_dropdown_filled d.el then .notTouched
  else if sweep_question_found d then
    (if d.fillRaises then .openedEscaped
     else if d.noOptionVisible then .openedFilledNo
     else .openedEscaped)
  else .notTouched

/-- The earlier scan (source lines 699-755) prints an "EMPTY DROPDOWN FOUND"
diagnostic exactly for the visible dropdowns `is_dropdown_filled` rejects. -/
def reported_empty (d : SweepDropdown) : Bool :=
  d.visible && ¬ is_dropdown_filled d.el

/-! ## Workflow orchestration (`apply_to_job`, `main`, steps 4 and 9)

`apply_to_job` (source lines 978-1023) runs steps 1-9 in order inside one
`try`; any exception from a step lands in the `except` branch, which takes an
`error_{job_id}` screenshot and appends the job to `FAILED_SUBMISSIONS`;
otherwise the job is appended to `SUCCESSFUL_SUBMISSIONS` when
`step_9_review_and_submit` returned `True` and to `INCOMPLETE_SUBMISSIONS`
when it returned `False`.  `main` (source lines 1090-1138) loops
`apply_to_job` over `JOB_IDS`. -/

/-- The nine steps of the per-job sequence, in call order. -/
inductive StepId
  | login | navigate | search | applyStep | myInfo | myExp
  | questions | voluntary | submitStep
deriving DecidableEq

def stepSeq : List StepId :=
  [.login, .navigate, .search, .applyStep, .myInfo, .myExp,
   .questions, .voluntary, .submitStep]

/-- Behaviour oracle of the browser for one job: which steps raise an
exception, the apply-selector query results before and after the single
step-3 retry, and the submit-selector query results in step 9. -/
structure JobBeh where
  raises : StepId → Bool
  queryApply1 : String → Bool
  queryApply2 : String → Bool
  querySubmit : String → Bool

/-- The apply/continue selectors of step 4 (source lines 158-165). -/
def apply_selectors : List String :=
  ["a:has-text(\"Apply\")",
   "button:has-text(\"Apply\")",
   "a:has-text(\"Continue Application\")",
   "button:has-text(\"Continue Application\")",
   "[data-automation-id*=\"apply\"]",
   "[data-automation-id*=\"continue\"]"]

/-- `step_4_click_apply` (source lines 151-214): scan the apply selectors; if
none matches, rerun `step_3_search_job` once and scan again; if still none,
return `False`.  Result: (button clicked?, number of step-3 retries). -/
def step_4_click_apply (b : JobBeh) : Bool × Nat :=
  if apply_selectors.any b.queryApply1 then (true, 0)
  else if apply_selectors.any b.queryApply2 then (true, 1)
  else (false, 1)

/-- The submit selectors of step 9 (source lines 947-952). -/
def submit_selectors : List String :=
  ["button:has-text(\"Submit\")",
   "button:has-text(\"Submit Application\")",
   "input[type=\"submit\"]",
   "button[type=\"submit\"]"]

/-- `step_9_review_and_submit` (source lines 934-972): returns whether some
submit selector had a visible first match (which was then clicked). -/
def step_9_review_and_submit (b : JobBeh) : Bool :=
  submit_selectors.any b.querySubmit

/-- Run a step list in order, stopping with the first step that raises (that
step is entered but the rest of the sequence is not). -/
def execAux (b : JobBeh) : List StepId → List StepId
  | [] => []
  | s :: rest => if b.raises s then [s] else s :: execAux b rest

/-- The steps a job actually executes inside `apply_to_job`'s `try`. -/
def executedSteps (b : JobBeh) : List StepId :=
  execAux b stepSeq

theorem execAux_no_raise (b : JobBeh) :
    ∀ l : List StepId, l.any b.raises = false → execAux b l = l := by
  intro l
  induction l with
  | nil => intro _; rfl
  | cons s rest ih =>
      intro h
      simp only [List.any_cons, Bool.or_eq_false_iff] at h
      simp [execAux, h.1, ih h.2]

/-- Terminal classification of one job, as `apply_to_job` records it: any
raising step is caught at the job boundary and the job is FAILED; otherwise
SUCCESS exactly when step 9 clicked a submit control, else INCOMPLETE. -/
inductive Status
  | success | incomplete | failed
deriving DecidableEq

def classify_job (b : JobBeh) : Status :=
  if stepSeq.any b.raises then .failed
  else if step_9_review_and_submit b then .success
  else .incomplete

/-- The `debug_screenshot(page, f"error_{job_id}")` of the `except` branch:
taken exactly when some step raised. -/
def job_error_screenshot (b : JobBeh) (jid : String) : Option String :=
  if stepSeq.any b.raises then some ("error_" ++ jid) else none

/-- The three module-level tracking lists (source lines 24-26). -/
structure Ledger where
  successful_submissions : List String
  incomplete_submissions : List String
  failed_submissions : List String
deriving DecidableEq

def Ledger.empty : Ledger := ⟨[], [], []⟩

/-- The appends at the end of `apply_to_job` (source lines 1008-1018). -/
def apply_to_job (b : JobBeh) (jid : String) (L : Ledger) : Ledger :=
  match classify_job b with
  | .success => { L with successful_submissions := L.successful_submissions ++ [jid] }
  | .incomplete => { L with incomplete_submissions := L.incomplete_submissions ++ [jid] }
  | .failed => { L with failed_submissions := L.failed_submissions ++ [jid] }

/-- The `for job_id in JOB_IDS: apply_to_job(job_id)` loop of `main` (source
lines 1105-1111); `beh i` is the browser behaviour for the i-th job. -/
def runBatchFrom (beh : Nat → JobBeh) : Nat → List String → Ledger → Ledger
  | _, [], L => L
  | i, j :: rest, L => runBatchFrom beh (i + 1) rest (apply_to_job (beh i) j L)

def runBatch (beh : Nat → JobBeh) (jobs : List String) : Ledger :=
  runBatchFrom beh 0 jobs Ledger.empty

/-- Total number of occurrences of a job id across the three buckets. -/
def totalCount (L : Ledger) (jid : String) : Nat :=
  L.successful_submissions.count jid + L.incomplete_submissions.count jid
    + L.failed_submissions.count jid

theorem totalCount_apply_to_job (b : JobBeh) (j jid : String) (L : Ledger) :
    totalCount (apply_to_job b j L) jid
      = totalCount L jid + (if j = jid then 1 else 0) := by
  unfold apply_to_job totalCount
  cases classify_job b <;>
    simp [List.count_append, List.count_cons, beq_iff_eq] <;> split <;> omega

theorem totalCount_runBatchFrom (beh : Nat → JobBeh) (jobs : List String) :
    ∀ (i : Nat) (L : Ledger) (jid : String),
      totalCount (runBatchFrom beh i jobs L) jid = totalCount L jid + jobs.count jid := by
  induction jobs with
  | nil => intro i L jid; simp [runBatchFrom]
  | cons j rest ih =>
      intro i L jid
      simp only [runBatchFrom, ih, totalCount_apply_to_job, List.count_cons, beq_iff_eq]
      split <;> omega

/-- `main` processes every job id, raising or not: each job id lands in the
buckets exactly as often as it occurs in the input list. -/
theorem totalCount_runBatch (beh : Nat → JobBeh) (jobs : List String) (jid : String) :
    totalCount (runBatch beh jobs) jid = jobs.count jid := by
  unfold runBatch
  rw [totalCount_runBatchFrom]
  simp [Ledger.empty, totalCount]

/-! ## Step 7 page guard (source lines 287-298 and 834-847)

`step_7_application_questions` checks `page.locator('text="Application
Questions"').count() > 0`; only then does its body run (pattern fills,
military handler, empty-dropdown scan, auto-fill).  Either way the step then
locates `button:has-text("Save and Continue")` and clicks it when present. -/

/-- The observable actions of step 7, coarsely: dropdown opens/modifications
(only the guarded body performs them) and the trailing Save-and-Continue
handling. -/
inductive S7Event
  | dropdownOpenedEv
  | dropdownModifiedEv
  | saveQueriedEv
  | saveClickedEv
  | saveMissingEv
deriving DecidableEq

/-- The page as step 7 observes it for its two top-level queries. -/
structure S7Page where
  appQuestionsCount : Nat
  saveCount : Nat
deriving DecidableEq

/-- The trailing Save-and-Continue attempt (source lines 837-847): query the
button, click it when `count() > 0`, else report it missing. -/
def step7_tail (p : S7Page) : List S7Event :=
  [.saveQueriedEv] ++ (if p.saveCount > 0 then [.saveClickedEv] else [.saveMissingEv])

/-- `step_7_application_questions` as an event trace: the body trace `body`
(whatever the fills, military handler and sweep would do on this page) runs
only under the `count() > 0` guard; the tail always runs. -/
def step_7_application_questions (p : S7Page) (body : List S7Event) : List S7Event :=
  (if p.appQuestionsCount > 0 then body else []) ++ step7_tail p

/-! ## Configuration loading and `main` (source lines 13-16 and 1090-1111) -/

/-- The four environment values read at module load. -/
structure Env where
  workday_url : Option String
  workday_user : Option String
  workday_pass : Option String
  job_ids : Option String
deriving DecidableEq

/-- `JOB_IDS = [j.strip() for j in os.getenv("JOB_IDS", "").split(",") if j.strip()]`
(source line 16). -/
def parseJobIds (s : List Char) : List (List Char) :=
  ((pySplit ',' s).map pyStrip).filter (fun j => j ≠ [])

def JOB_IDS (e : Env) : List String :=
  (parseJobIds (e.job_ids.getD "").toList).map (fun cs => String.mk cs)

example : parseJobIds " 11, 22 ,,33 ".toList
    = ["11".toList, "22".toList, "33".toList] := by decide

/-- Outcome of `main`: the two early returns, or a completed batch run with
its final ledger and the number of browser sessions opened (one
`p.chromium.launch` per `apply_to_job` call). -/
inductive RunOutcome
  | abortedConfigMissing
  | abortedNoJobIds
  | completed (L : Ledger) (sessions : Nat)
deriving DecidableEq

/-- `main` (source lines 1090-1111): abort when `WORKDAY_URL`, `WORKDAY_USER`
or `WORKDAY_PASS` is falsy, abort when `JOB_IDS` is empty, else run
`apply_to_job` for every job id. -/
def pymain (e : Env) (beh : Nat → JobBeh) : RunOutcome :=
  if ¬ (pyTruthy e.workday_url && pyTruthy e.workday_user && pyTruthy e.workday_pass) then
    .abortedConfigMissing
  else if JOB_IDS e = [] then .abortedNoJobIds
  else .completed (runBatch beh (JOB_IDS e)) (JOB_IDS e).length

def browserSessions : RunOutcome → Nat
  | .completed _ n => n
  | _ => 0

/-- The workflow steps a whole `main` invocation executes: none when it
aborts, the per-job executed steps otherwise. -/
def mainExecutedSteps (e : Env) (beh : Nat → JobBeh) : List StepId :=
  match pymain e beh with
  | .completed _ _ => (List.range (JOB_IDS e).length).flatMap (fun i => executedSteps (beh i))
  | _ => []

/-! ## Concrete behaviours used by witnesses and counterexamples -/

/-- A browser where every locator query finds a visible match and no step
raises. -/
def behAllGood : JobBeh :=
  ⟨fun _ => false, fun _ => true, fun _ => true, fun _ => true⟩

/-- A browser where the apply selectors never match (before and after the
retry) but everything else, including submit, works. -/
def behNoApply : JobBeh :=
  ⟨fun _ => false, fun _ => false, fun _ => false, fun _ => true⟩

/-- A browser where everything works except that no submit selector has a
visible match in step 9. -/
def behNoSubmit : JobBeh :=
  ⟨fun _ => false, fun _ => true, fun _ => true, fun _ => false⟩

/-- A browser where step 7 raises an exception. -/
def behRaiseQuestions : JobBeh :=
  ⟨fun s => s == .questions, fun _ => true, fun _ => true, fun _ => true⟩

/-! ## Claim C1 -/

/-- C1 counterexample: the claim says a job id is never appended to the same
bucket twice, but `main` does not deduplicate `JOB_IDS`.  With the
environment value `JOB_IDS="1,1"` and both attempts succeeding, the run
terminates normally and `SUCCESSFUL_SUBMISSIONS` holds "1" twice. -/
theorem c1_duplicate_ids_double_append :
    pymain ⟨some "u", some "n", some "p", some "1,1"⟩ (fun _ => behAllGood)
        = .completed ⟨["1", "1"], [], []⟩ 2 ∧
    (runBatch (fun _ => behAllGood) ["1", "1"]).successful_submissions.count "1" = 2 := by
  constructor <;> rfl

/-- C1 (amended): for every batch run that terminates normally and whose
input job ids are pairwise distinct, each input job id is appended to
exactly one of the three terminal buckets, exactly once, and a job id absent
from all buckets is one that was not in the input. -/
theorem c1_each_job_exactly_one_bucket (beh : Nat → JobBeh) (jobs : List String)
    (h : jobs.Nodup) :
    (∀ jid ∈ jobs, totalCount (runBatch beh jobs) jid = 1) ∧
    (∀ jid, jid ∉ jobs → totalCount (runBatch beh jobs) jid = 0) := by
  constructor
  · intro jid hm
    rw [totalCount_runBatch]
    exact List.count_eq_one_of_mem h hm
  · intro jid hm
    rw [totalCount_runBatch]
    exact List.count_eq_zero_of_not_mem hm

/-- C1 witness: a two-job batch with distinct ids puts each id in exactly one
bucket exactly once. -/
theorem c1_each_job_exactly_one_bucket_witness :
    (∀ jid ∈ ["7", "8"], totalCount (runBatch (fun _ => behAllGood) ["7", "8"]) jid = 1) ∧
    (∀ jid, jid ∉ ["7", "8"] →
      totalCount (runBatch (fun _ => behAllGood) ["7", "8"]) jid = 0) :=
  c1_each_job_exactly_one_bucket (fun _ => behAllGood) ["7", "8"] (by decide)

/-! ## Claim C2 -/

/-- A dropdown showing "Previous associate" (18 characters, matching no
placeholder phrase) with a non-sentinel value attribute: the claim (and the
function's own comments) classify it as filled. -/
def c2FailingDropdown : DropdownEl :=
  ⟨"Previous associate".toList, some "prev".toList, false⟩

/-- C2 (code bug): on the failing input the claim's predicate says filled but
the source's `is_dropdown_filled` returns `False` — the `""` entry of
`empty_indicators` is a Python substring of every dropdown text, so the
function's value-attribute and length checks are dead code and the function
returns `False` on every input (see `is_dropdown_filled_always_false`). -/
theorem c2_filled_heuristic_dead :
    spec_dropdown_filled c2FailingDropdown = true ∧
    is_dropdown_filled c2FailingDropdown = false := by
  constructor <;> decide

/-! ## Claim C3 -/

/-- C3 counterexample: with the Apply control absent on the initial attempt
and after the single retry, `step_4_click_apply` returns failure — but
`apply_to_job` ignores the returned value, so all remaining steps still
execute, and with a working submit page the job is recorded as SUCCESS, not
FAILED. -/
theorem c3_missing_apply_does_not_abort_job :
    apply_selectors.any behNoApply.queryApply1 = false ∧
    apply_selectors.any behNoApply.queryApply2 = false ∧
    step_4_click_apply behNoApply = (false, 1) ∧
    executedSteps behNoApply = stepSeq ∧
    classify_job behNoApply = .success := by
  refine ⟨rfl, rfl, rfl, rfl, rfl⟩

/-- C3 (amended): when the Apply control is absent on the initial attempt the
apply step retries the prior navigation step exactly once; if the control is
still absent the step returns failure, but the orchestrator does not inspect
that result: when no step raises, every workflow step still executes, and the
job is recorded as FAILED exactly when some step raises an exception. -/
theorem c3_apply_retry_once_then_flow_continues (b : JobBeh)
    (h1 : apply_selectors.any b.queryApply1 = false) :
    (step_4_click_apply b).2 = 1 ∧
    (apply_selectors.any b.queryApply2 = false →
      (step_4_click_apply b).1 = false ∧
      (stepSeq.any b.raises = false → executedSteps b = stepSeq) ∧
      (classify_job b = .failed ↔ stepSeq.any b.raises = true)) := by
  constructor
  · unfold step_4_click_apply
    rw [h1]
    by_cases h2 : apply_selectors.any b.queryApply2 <;> simp [h2]
  · intro h2
    refine ⟨?_, ?_, ?_⟩
    · unfold step_4_click_apply
      rw [h1, h2]
      simp
    · intro hnr
      exact execAux_no_raise b stepSeq hnr
    · unfold classify_job
      by_cases hr : stepSeq.any b.raises
      · simp [hr]
      · simp only [Bool.not_eq_true] at hr
        by_cases hs : step_9_review_and_submit b <;> simp [hr, hs]

/-- C3 witness: the amended statement evaluated on a concrete browser with
the Apply control absent on both attempts and no raising step. -/
theorem c3_apply_retry_once_then_flow_continues_witness :
    (step_4_click_apply behNoApply).2 = 1 ∧
    (apply_selectors.any behNoApply.queryApply2 = false →
      (step_4_click_apply behNoApply).1 = false ∧
      (stepSeq.any behNoApply.raises = false → executedSteps behNoApply = stepSeq) ∧
      (classify_job behNoApply = .failed ↔ stepSeq.any behNoApply.raises = true)) :=
  c3_apply_retry_once_then_flow_continues behNoApply (by decide)

/-! ## Claim C4 -/

/-- C4: when all pages complete without an exception, a job whose step 9
finds no visible control for any submit selector is recorded INCOMPLETE, and
the job is recorded SUCCESS exactly when a submit control was found (and
clicked). -/
theorem c4_no_submit_control_incomplete (b : JobBeh)
    (h : stepSeq.any b.raises = false) :
    (step_9_review_and_submit b = false → classify_job b = .incomplete) ∧
    (classify_job b = .success ↔ step_9_review_and_submit b = true) := by
  unfold classify_job
  by_cases hs : step_9_review_and_submit b <;> simp [h, hs]

/-- C4 witness: a concrete exception-free job whose submit selectors all come
back empty is classified INCOMPLETE and not SUCCESS. -/
theorem c4_no_submit_control_incomplete_witness :
    (step_9_review_and_submit behNoSubmit = false → classify_job behNoSubmit = .incomplete) ∧
    (classify_job behNoSubmit = .success ↔ step_9_review_and_submit behNoSubmit = true) :=
  c4_no_submit_control_incomplete behNoSubmit (by decide)

/-! ## Claim C5 -/

/-- C5: an exception raised by any step of a job is caught at the job
boundary: the job is classified FAILED, the diagnostic `error_{job_id}`
screenshot is taken, and the batch still processes every job id of the input
list (no abort). -/
theorem c5_exception_caught_at_job_boundary (beh : Nat → JobBeh)
    (jobs : List String) (k : Nat) (jid : String)
    (h : stepSeq.any (beh k).raises = true) :
    classify_job (beh k) = .failed ∧
    job_error_screenshot (beh k) jid = some ("error_" ++ jid) ∧
    (∀ j, totalCount (runBatch beh jobs) j = jobs.count j) := by
  refine ⟨?_, ?_, fun j => totalCount_runBatch beh jobs j⟩
  · simp [classify_job, h]
  · simp [job_error_screenshot, h]

/-- C5 witness: a job raising in step 7 is FAILED with its error screenshot,
and a batch of two jobs (the raising one first) still classifies both. -/
theorem c5_exception_caught_at_job_boundary_witness :
    classify_job behRaiseQuestions = .failed ∧
    job_error_screenshot behRaiseQuestions "9" = some ("error_" ++ "9") ∧
    (∀ j, totalCount (runBatch (fun _ => behRaiseQuestions) ["9", "10"]) j
      = ["9", "10"].count j) :=
  c5_exception_caught_at_job_boundary (fun _ => behRaiseQuestions) ["9", "10"] 0 "9"
    (by decide)

/-! ## Claim C6 -/

/-- No answer of the question table both has a word longer than three
characters and is a single word: each answer is either multi-word or made of
short words only (for which the fallback tier is skipped entirely). -/
theorem question_mappings_answer_shape :
    ∀ p ∈ question_mappings,
      2 ≤ (pyWords p.2.toList).length ∨
      (pyWords p.2.toList).all (fun w => decide (w.length ≤ 3)) = true := by
  decide

/-- C6: the resolver searches the opened options exact-text first; only when
every exact-tier selector fails does it try a partial match on a word of the
answer longer than three characters, selecting it when present and visible;
when neither tier matches it presses Escape and reports failure; and for the
answers of the question table a partial-tier selection can only happen for a
multi-word answer. -/
theorem c6_option_match_tiers (q : OptSel → Bool) (answer : List Char) :
    ((∃ s ∈ option_selectors answer, q s = true) →
      ∃ s, select_answer q answer = .exactSel s ∧ s ∈ option_selectors answer ∧
        q s = true) ∧
    (((∀ s ∈ option_selectors answer, q s = false) ∧
        ∃ w ∈ pyWords answer, w.length > 3 ∧ q (.roleOption w) = true) →
      ∃ w, select_answer q answer = .fallbackWord w ∧ w ∈ pyWords answer ∧
        w.length > 3 ∧ q (.roleOption w) = true) ∧
    ((∀ s ∈ option_selectors answer, q s = false) →
      (∀ w ∈ pyWords answer, ¬ (w.length > 3 ∧ q (.roleOption w) = true)) →
      select_answer q answer = .escapeClosed) ∧
    (∀ p ∈ question_mappings, answer = p.2.toList →
      ∀ w, select_answer q answer = .fallbackWord w → 2 ≤ (pyWords answer).length) := by
  have hnone : (∀ s ∈ option_selectors answer, q s = false) →
      (option_selectors answer).find? q = none := by
    intro hall
    apply List.find?_eq_none.mpr
    intro s hs
    simp [hall s hs]
  refine ⟨?_, ?_, ?_, ?_⟩
  · rintro ⟨s0, hmem0, hq0⟩
    have hsome : ((option_selectors answer).find? q).isSome :=
      List.find?_isSome.mpr ⟨s0, hmem0, hq0⟩
    obtain ⟨s, hs⟩ := Option.isSome_iff_exists.mp hsome
    refine ⟨s, ?_, List.mem_of_find?_eq_some hs, List.find?_some hs⟩
    unfold select_answer
    rw [hs]
  · rintro ⟨hall, w0, hmem0, hlen0, hq0⟩
    have hsome : ((pyWords answer).find?
        (fun w => decide (w.length > 3) && q (.roleOption w))).isSome :=
      List.find?_isSome.mpr ⟨w0, hmem0, by simp [hlen0, hq0]⟩
    obtain ⟨w, hw⟩ := Option.isSome_iff_exists.mp hsome
    have hp := List.find?_some hw
    simp only [Bool.and_eq_true, decide_eq_true_eq] at hp
    refine ⟨w, ?_, List.mem_of_find?_eq_some hw, hp.1, hp.2⟩
    unfold select_answer
    rw [hnone hall, hw]
  · intro hall hnow
    have hwnone : (pyWords answer).find?
        (fun w => decide (w.length > 3) && q (.roleOption w)) = none := by
      apply List.find?_eq_none.mpr
      intro w hw
      have := hnow w hw
      simp only [Bool.and_eq_true, decide_eq_true_eq, not_and] at this ⊢
      intro hlen
      by_cases hq : q (.roleOption w) = true
      · exact absurd ⟨hlen, hq⟩ (hnow w hw)
      · simpa using hq
    unfold select_answer
    rw [hnone hall, hwnone]
  · intro p hp heq w hw
    have hinv := select_answer_fallback_inv q answer w hw
    rcases question_mappings_answer_shape p hp with hlong | hshort
    · rw [heq]; exact hlong
    · exfalso
      have hmem : w ∈ pyWords p.2.toList := heq ▸ hinv.1
      have := List.all_eq_true.mp hshort w hmem
      simp only [decide_eq_true_eq] at this
      omega

/-- The opened page of the witness: only the option containing the single
word "Previous" is present and visible. -/
def c6Query : OptSel → Bool := fun s =>
  match s with
  | .roleOption t => t == "Previous".toList
  | _ => false

/-- C6 witness: for the mapped answer "Previous associate" with the
exact-answer option absent but an option for "Previous" visible, the partial
match is selected. -/
theorem c6_option_match_tiers_witness :
    ∃ w, select_answer c6Query "Previous associate".toList = .fallbackWord w ∧
      w ∈ pyWords "Previous associate".toList ∧ w.length > 3 ∧
      c6Query (.roleOption w) = true :=
  (c6_option_match_tiers c6Query "Previous associate".toList).2.1
    ⟨by decide, by decide⟩

/-! ## Claim C7 -/

/-- C7: in the auto-fill phase of the sweep pass, a dropdown gets the default
"No" answer only when some ancestor container's text (levels 1..4) contains a
keyword of the fixed military keyword set; a dropdown whose surrounding text
contains no such keyword is not opened or modified, and, being visible and
unfilled, it was reported by the preceding diagnostic scan. -/
theorem c7_sweep_autofill_keyword_gated (d : SweepDropdown) :
    (auto_fill_action d = .openedFilledNo → sweep_question_found d = true) ∧
    (sweep_question_found d = false →
      auto_fill_action d = .notTouched ∧
      (d.visible = true → reported_empty d = true)) := by
  have hfilled := is_dropdown_filled_always_false d.el
  constructor
  · intro h
    by_cases hq : sweep_question_found d
    · exact hq
    · exfalso
      unfold auto_fill_action at h
      by_cases hv : d.visible <;> simp [hv, hfilled, hq] at h
  · intro hq
    constructor
    · unfold auto_fill_action
      by_cases hv : d.visible <;> simp [hv, hfilled, hq]
    · intro hv
      simp [reported_empty, hv, hfilled]

/-- The witness dropdowns: one with "Active Duty" in an ancestor container's
text, one with no military keyword around it. -/
def c7MilDropdown : SweepDropdown :=
  ⟨true, ⟨"select one".toList, none, false⟩,
   [some "Do you have Active Duty or Reserve experience?".toList], true, false⟩

def c7PlainDropdown : SweepDropdown :=
  ⟨true, ⟨"select one".toList, none, false⟩,
   [some "Do you have a direct family member at Walmart?".toList], true, false⟩

/-- C7 witness: the military-keyword dropdown that the pass fills with "No"
does have a keyword in scope, and the keyword-free dropdown is left untouched
though reported. -/
theorem c7_sweep_autofill_keyword_gated_witness :
    sweep_question_found c7MilDropdown = true ∧
    (auto_fill_action c7PlainDropdown = .notTouched ∧
      (c7PlainDropdown.visible = true → reported_empty c7PlainDropdown = true)) :=
  ⟨(c7_sweep_autofill_keyword_gated c7MilDropdown).1 (by decide),
   (c7_sweep_autofill_keyword_gated c7PlainDropdown).2 (by decide)⟩

/-! ## Claims C8 and C9 -/

theorem pySplit_ne_nil (sep : Char) (s : List Char) : pySplit sep s ≠ [] := by
  cases s with
  | nil => simp [pySplit]
  | cons c cs =>
      unfold pySplit
      split <;> simp

/-- Every character of every piece of a split came from the input and is not
the separator. -/
theorem pySplit_piece_chars (sep : Char) :
    ∀ (s t : List Char), t ∈ pySplit sep s → ∀ c ∈ t, c ∈ s ∧ c ≠ sep := by
  intro s
  induction s with
  | nil =>
      intro t ht c hc
      simp [pySplit] at ht
      subst ht
      simp at hc
  | cons c0 cs ih =>
      intro t ht c hc
      by_cases hsep : c0 = sep
      · rw [pySplit, if_pos hsep] at ht
        rcases List.mem_cons.mp ht with h | h
        · subst h; simp at hc
        · rcases ih t h c hc with ⟨h1, h2⟩
          exact ⟨List.mem_cons_of_mem c0 h1, h2⟩
      · rw [pySplit, if_neg hsep] at ht
        obtain ⟨t0, ts, hsplit⟩ := List.exists_cons_of_ne_nil (pySplit_ne_nil sep cs)
        rw [hsplit] at ht
        simp only [List.headD_cons, List.tail_cons] at ht
        rcases List.mem_cons.mp ht with h | h
        · subst h
          rcases List.mem_cons.mp hc with h | h
          · subst h; exact ⟨List.mem_cons_self c cs, hsep⟩
          · rcases ih t0 (hsplit ▸ List.mem_cons_self t0 ts) c h with ⟨h1, h2⟩
            exact ⟨List.mem_cons_of_mem c0 h1, h2⟩
        · rcases ih t (hsplit ▸ List.mem_cons_of_mem t0 h) c hc with ⟨h1, h2⟩
          exact ⟨List.mem_cons_of_mem c0 h1, h2⟩

/-- Stripping a string of whitespace only leaves nothing. -/
theorem pyStrip_all_space (t : List Char) (h : ∀ c ∈ t, pyIsSpace c = true) :
    pyStrip t = [] := by
  unfold pyStrip
  have h1 : t.dropWhile pyIsSpace = [] := List.dropWhile_eq_nil_iff.mpr h
  simp [h1]

/-- C8: if `WORKDAY_URL`, `WORKDAY_USER` or `WORKDAY_PASS` is missing from
the environment, or the parsed job-id list is empty, `main` returns before
any browser session is opened and no workflow step executes. -/
theorem c8_missing_config_aborts_before_browser (e : Env) (beh : Nat → JobBeh)
    (h : e.workday_url = none ∨ e.workday_user = none ∨ e.workday_pass = none ∨
      JOB_IDS e = []) :
    browserSessions (pymain e beh) = 0 ∧ mainExecutedSteps e beh = [] := by
  have habort : pymain e beh = .abortedConfigMissing ∨
      pymain e beh = .abortedNoJobIds := by
    rcases h with h | h | h | h
    · left; simp [pymain, h, pyTruthy]
    · left; simp [pymain, h, pyTruthy]
    · left; simp [pymain, h, pyTruthy]
    · by_cases hc : (pyTruthy e.workday_url && pyTruthy e.workday_user
          && pyTruthy e.workday_pass) = true
      · right; simp [pymain, hc, h]
      · left; simp [pymain, hc]
  rcases habort with h2 | h2 <;>
    simp [browserSessions, mainExecutedSteps, h2]

/-- C8 witness: a configuration with no password (other values present, one
job id) opens no browser session and runs no step. -/
theorem c8_missing_config_aborts_before_browser_witness :
    browserSessions (pymain ⟨some "u", some "n", none, some "1"⟩
      (fun _ => behAllGood)) = 0 ∧
    mainExecutedSteps ⟨some "u", some "n", none, some "1"⟩
      (fun _ => behAllGood) = [] :=
  c8_missing_config_aborts_before_browser ⟨some "u", some "n", none, some "1"⟩
    (fun _ => behAllGood) (Or.inr (Or.inr (Or.inl rfl)))

/-- C9: a `JOB_IDS` environment string made only of commas and whitespace
parses to the empty job list — the comma pieces are whitespace-only, strip to
empty and are dropped — so the run opens no browser session and, when the
other configuration values are present, aborts exactly as with no job ids. -/
theorem c9_blank_job_ids_parse_empty_and_abort (e : Env) (beh : Nat → JobBeh)
    (h : ∀ c ∈ (e.job_ids.getD "").toList, c = ',' ∨ pyIsSpace c = true) :
    JOB_IDS e = [] ∧ browserSessions (pymain e beh) = 0 ∧
    ((pyTruthy e.workday_url && pyTruthy e.workday_user
        && pyTruthy e.workday_pass) = true →
      pymain e beh = .abortedNoJobIds) := by
  have hparse : parseJobIds (e.job_ids.getD "").toList = [] := by
    unfold parseJobIds
    rw [List.filter_eq_nil_iff]
    intro j hj
    simp only [List.mem_map] at hj
    obtain ⟨t, ht, rfl⟩ := hj
    have hall : ∀ c ∈ t, pyIsSpace c = true := by
      intro c hct
      rcases pySplit_piece_chars ',' _ t ht c hct with ⟨hcs, hne⟩
      rcases h c hcs with h1 | h1
      · exact absurd h1 hne
      · exact h1
    simp [pyStrip_all_space t hall]
  have hjob : JOB_IDS e = [] := by
    unfold JOB_IDS
    rw [hparse]
    rfl
  refine ⟨hjob, ?_, ?_⟩
  · rcases c8_missing_config_aborts_before_browser e beh
      (Or.inr (Or.inr (Or.inr hjob))) with ⟨h1, _⟩
    exact h1
  · intro hc
    simp [pymain, hc, hjob]

/-- C9 witness: with full credentials and `JOB_IDS=" ,, \t , "` the parsed
list is empty and the run aborts as with no job ids. -/
theorem c9_blank_job_ids_parse_empty_and_abort_witness :
    JOB_IDS ⟨some "u", some "n", some "p", some " ,, \t , "⟩ = [] ∧
    browserSessions (pymain ⟨some "u", some "n", some "p", some " ,, \t , "⟩
      (fun _ => behAllGood)) = 0 ∧
    ((pyTruthy (some "u") && pyTruthy (some "n") && pyTruthy (some "p")) = true →
      pymain ⟨some "u", some "n", some "p", some " ,, \t , "⟩
        (fun _ => behAllGood) = .abortedNoJobIds) :=
  c9_blank_job_ids_parse_empty_and_abort ⟨some "u", some "n", some "p", some " ,, \t , "⟩
    (fun _ => behAllGood) (by decide)

/-! ## Claim C10 -/

/-- C10: when the text "Application Questions" is not found on the page, step
7 skips its whole body — its trace has no dropdown open or modification, for
any body behaviour — yet it still performs the trailing Save-and-Continue
attempt: the button is queried, and clicked when present. -/
theorem c10_no_app_questions_page_only_save (p : S7Page) (body : List S7Event)
    (h : p.appQuestionsCount = 0) :
    step_7_application_questions p body = step7_tail p ∧
    S7Event.dropdownOpenedEv ∉ step_7_application_questions p body ∧
    S7Event.dropdownModifiedEv ∉ step_7_application_questions p body ∧
    S7Event.saveQueriedEv ∈ step_7_application_questions p body ∧
    (p.saveCount > 0 → S7Event.saveClickedEv ∈ step_7_application_questions p body) := by
  have htr : step_7_application_questions p body = step7_tail p := by
    unfold step_7_application_questions
    simp [h]
  refine ⟨htr, ?_, ?_, ?_, ?_⟩ <;> rw [htr] <;> unfold step7_tail
  · by_cases hs : p.saveCount > 0 <;> simp [hs]
  · by_cases hs : p.saveCount > 0 <;> simp [hs]
  · simp
  · intro hs; simp [hs]

/-- C10 witness: a page without "Application Questions" but with a Save and
Continue button, against a body that would have opened a dropdown. -/
theorem c10_no_app_questions_page_only_save_witness :
    step_7_application_questions ⟨0, 1⟩ [.dropdownOpenedEv] = step7_tail ⟨0, 1⟩ ∧
    S7Event.dropdownOpenedEv ∉ step_7_application_questions ⟨0, 1⟩ [.dropdownOpenedEv] ∧
    S7Event.dropdownModifiedEv ∉ step_7_application_questions ⟨0, 1⟩ [.dropdownOpenedEv] ∧
    S7Event.saveQueriedEv ∈ step_7_application_questions ⟨0, 1⟩ [.dropdownOpenedEv] ∧
    ((⟨0, 1⟩ : S7Page).saveCount > 0 →
      S7Event.saveClickedEv ∈ step_7_application_questions ⟨0, 1⟩ [.dropdownOpenedEv]) :=
  c10_no_app_questions_page_only_save ⟨0, 1⟩ [.dropdownOpenedEv] rfl

end Walmart
